import Mathlib

/-! Verification of the zod-fragments library (src/index.ts and
src/extensions.ts). The fragments are thin configurations of the zod
runtime, so the embedding models each fragment factory as a function from
an input JS value to either a validated output or a failure that carries
the failure class and the resolved message, mirroring how zod executes the
configured rule. When zod would collect several issues on one field (only
possible here for the chained refinements of money), the model reports the
first issue zod emits. -/

namespace ZodFragments

/-- JS runtime values that can reach a fragment: `undef` is an absent or
undefined value, `nullv` is null, `nan` is the number NaN, and finite JS
numbers are modelled as exact rationals. -/
inductive JsValue where
  | undef
  | nullv
  | str (s : String)
  | num (q : ℚ)
  | nan
  | bool (b : Bool)
  deriving DecidableEq, Repr

/-- The failure taxonomy of the spec: a missing mandatory value, a value of
the wrong primitive type, or a present well-typed value failing a semantic
check (zod issue codes too_small, custom, invalid_enum_value and the like). -/
inductive FailureClass where
  | Required
  | InvalidType
  | Validation
  deriving DecidableEq, Repr

/-- A single reported validation failure: its class and its message. -/
structure Failure where
  cls : FailureClass
  msg : String
  deriving DecidableEq, Repr

instance {ε α : Type} [DecidableEq ε] [DecidableEq α] : DecidableEq (Except ε α)
  | .ok a, .ok b =>
      if h : a = b then isTrue (by rw [h]) else isFalse (by simp [h])
  | .ok _, .error _ => isFalse (by simp)
  | .error _, .ok _ => isFalse (by simp)
  | .error a, .error b =>
      if h : a = b then isTrue (by rw [h]) else isFalse (by simp [h])

/- Embeds the `FIELD_ERRORS` message catalog of src/index.ts. -/
namespace FIELD_ERRORS

def REQUIRED : String := "is required"

def STRING : String := "must be a string"

def NUMBER : String := "must be a number"

def BOOLEAN : String := "must be a boolean"

def UUID : String := "must be a valid UUID"

def ENUM : String := "must be one of:"

def DATE : String := "must be a valid date"

def URL : String := "must be a valid URL"

def MOBILE : String := "must be a valid 10-digit mobile number"

def EMAIL : String := "must be a valid email address"

end FIELD_ERRORS

/-- Embeds the `CustomMessages` interface of src/index.ts: per-class
override entries, each possibly absent. -/
structure CustomMessages where
  required : Option String := none
  invalid : Option String := none
  validation : Option String := none
  deriving DecidableEq, Repr

/-- The `CustomMessages | string` union accepted by every factory as its
override argument. -/
inductive MsgArg where
  | str (s : String)
  | obj (m : CustomMessages)
  deriving DecidableEq, Repr

/-- JS `a || b` for an optional string `a`: an absent entry and the empty
string are both falsy and fall through to the default. -/
def jsOr : Option String → String → String
  | some s, d => if s = "" then d else s
  | none, d => d

/-- The inline pattern `typeof msg === "string" ? msg : msg?.field || dflt`
used by the factories in src/extensions.ts. A string override is returned
verbatim; an object override falls back through `||`. -/
def inlineMsg (msg : Option MsgArg) (pick : CustomMessages → Option String)
    (dflt : String) : String :=
  match msg with
  | some (.str s) => s
  | some (.obj m) => jsOr (pick m) dflt
  | none => dflt

/-! Semantics of the zod runtime primitives the factories configure. -/

/-- The zod default message for a missing value when no required_error was
configured. -/
def zodRequiredDefault : String := "Required"

/-- The zod default message for a union none of whose branches accepted the
value. -/
def zodInvalidUnionDefault : String := "Invalid input"

/-- `z.string({required_error, invalid_type_error})` applied to a value:
undefined reports the required message, any non-string reports the
invalid-type message. -/
def zodStringParse (requiredErr invalidErr : String) :
    JsValue → Except Failure String
  | .undef => .error ⟨.Required, requiredErr⟩
  | .str s => .ok s
  | _ => .error ⟨.InvalidType, invalidErr⟩

/-- `z.number({required_error, invalid_type_error})` applied to a value:
undefined reports the required message; NaN and every non-number report the
invalid-type message, as zod treats NaN as an invalid type. -/
def zodNumberParse (requiredErr invalidErr : String) :
    JsValue → Except Failure ℚ
  | .undef => .error ⟨.Required, requiredErr⟩
  | .num q => .ok q
  | _ => .error ⟨.InvalidType, invalidErr⟩

/-- `z.boolean({required_error, invalid_type_error})` applied to a value. -/
def zodBooleanParse (requiredErr invalidErr : String) :
    JsValue → Except Failure Bool
  | .undef => .error ⟨.Required, requiredErr⟩
  | .bool b => .ok b
  | _ => .error ⟨.InvalidType, invalidErr⟩

/-- `.optional()` on a rule: undefined passes through (as an absent result),
every other value is handed to the inner rule. -/
def zodOptional (inner : JsValue → Except Failure α) :
    JsValue → Except Failure (Option α)
  | .undef => .ok none
  | v => (inner v).map some

/-! Character and string helpers shared by the regex checks and transforms
of the source. -/

/-- The whitespace characters of the JS `\s` regex class and of
`String.prototype.trim`, restricted to the ASCII range the fragments
exercise. -/
def isJsWhitespace (c : Char) : Bool :=
  c == ' ' || c == '\t' || c == '\n' || c == '\r' || c.toNat == 11 || c.toNat == 12

/-- JS `String.prototype.trim`: strip leading and trailing whitespace. -/
def jsTrim (s : String) : String :=
  ⟨((s.data.dropWhile isJsWhitespace).reverse.dropWhile isJsWhitespace).reverse⟩

def isDigitChar (c : Char) : Bool :=
  '0' ≤ c && c ≤ '9'

def digitVal (c : Char) : ℕ := c.toNat - 48

def digitsToNat (l : List Char) : ℕ :=
  l.foldl (fun acc c => 10 * acc + digitVal c) 0

/-- A character allowed by the `[^\s@]` class of the email regex. -/
def emailOkChar (c : Char) : Bool :=
  !(isJsWhitespace c) && c != '@'

/-- Matches `[^\s@]+\.[^\s@]+`: no whitespace or at-sign anywhere, and some
dot strictly inside the run. -/
def emailDomainMatch (l : List Char) : Bool :=
  l.all emailOkChar &&
    (List.range l.length).any fun i =>
      decide (0 < i) && decide (i + 1 < l.length) && (l.getD i ' ' == '.')

/-- Matches the email regex `^[^\s@]+@[^\s@]+\.[^\s@]+$` of the source: the
string splits at an at-sign into a nonempty local part and a domain part of
the shape above. -/
def emailMatch (l : List Char) : Bool :=
  (List.range l.length).any fun i =>
    (l.getD i ' ' == '@') && decide (0 < i) &&
      (l.take i).all emailOkChar && emailDomainMatch (l.drop (i + 1))

def isEmailPattern (s : String) : Bool := emailMatch s.data

/-- Matches `^[6-9]\d{9}$`: ten digits, the first between 6 and 9. -/
def isIndiaMobile (s : String) : Bool :=
  match s.data with
  | c :: rest => ('6' ≤ c && c ≤ '9') && rest.length == 9 && rest.all isDigitChar
  | [] => false

def isHexDigit (c : Char) : Bool :=
  isDigitChar c || ('a' ≤ c && c ≤ 'f') || ('A' ≤ c && c ≤ 'F')

/-- The textual UUID format enforced by `z.string().uuid()`: five groups of
hex digits of lengths 8-4-4-4-12 separated by hyphens. -/
def isUuidString (s : String) : Bool :=
  s.data.length == 36 &&
    (List.range 36).all fun i =>
      if i == 8 || i == 13 || i == 18 || i == 23 then s.data.getD i ' ' == '-'
      else isHexDigit (s.data.getD i ' ')

/-- Models the host platform date parser behind the `Date.parse` builtin
that src/index.ts calls; the parsing rule itself lives in the JS runtime,
not in the repository. Following the README, which documents the fragments
as accepting ISO date strings, a string parses when it has the
`YYYY-MM-DD` shape with a plausible month and day. -/
def dateParseOk (s : String) : Bool :=
  match s.data with
  | [y1, y2, y3, y4, h1, m1, m2, h2, d1, d2] =>
      isDigitChar y1 && isDigitChar y2 && isDigitChar y3 && isDigitChar y4 &&
        h1 == '-' && h2 == '-' &&
        isDigitChar m1 && isDigitChar m2 && isDigitChar d1 && isDigitChar d2 &&
        decide (1 ≤ 10 * digitVal m1 + digitVal m2) &&
        decide (10 * digitVal m1 + digitVal m2 ≤ 12) &&
        decide (1 ≤ 10 * digitVal d1 + digitVal d2) &&
        decide (10 * digitVal d1 + digitVal d2 ≤ 31)
  | _ => false

/-- The transform `raw.trim().replace(/[\s-]/g, "")` of
`emailOrMobileNormalized`: trim, then delete every whitespace and hyphen. -/
def stripSpacesAndHyphens (s : String) : String :=
  ⟨(jsTrim s).data.filter fun c => !(isJsWhitespace c || c == '-')⟩

/-- The transform `raw.startsWith("+91") ? raw.slice(3) : raw`. -/
def dropCountryCode (s : String) : String :=
  if s.data.take 3 = ['+', '9', '1'] then ⟨s.data.drop 3⟩ else s

/-- JS `String.prototype.toLowerCase` on the ASCII strings the fragments
exercise. -/
def jsToLower (s : String) : String := ⟨s.data.map Char.toLower⟩

/-- Decimal digits with an optional fractional part, the core of the JS
`Number` builtin grammar for the plain decimal strings the money fragment
receives; the value is assembled through a single `Rat.divInt`. -/
def parseUnsignedDecimal (l : List Char) : Option ℚ :=
  let ip := l.takeWhile isDigitChar
  let rest := l.dropWhile isDigitChar
  match rest with
  | [] => if ip.isEmpty then none else some (Rat.divInt (digitsToNat ip) 1)
  | '.' :: frac =>
      if frac.all isDigitChar && !(ip.isEmpty && frac.isEmpty) then
        some (Rat.divInt (digitsToNat ip * 10 ^ frac.length + digitsToNat frac)
          (10 ^ frac.length))
      else none
  | _ => none

/-- Models the JS `Number(string)` builtin on the inputs the money fragment
receives: whitespace is trimmed, the empty string is 0, an optional sign
followed by a plain decimal literal parses to its exact value, and every
other string (including exponent, hex and Infinity forms, which the
fragments never exercise) is NaN, reported as `none`. -/
def jsNumber (s : String) : Option ℚ :=
  let t := jsTrim s
  if t.data.isEmpty then some (Rat.divInt 0 1)
  else
    match t.data with
    | '+' :: rest => parseUnsignedDecimal rest
    | '-' :: rest => (parseUnsignedDecimal rest).map Neg.neg
    | l => parseUnsignedDecimal l

/-- JS `Math.round` on a finite value: the floor of the value plus one
half, since JS rounds ties toward positive infinity. -/
def jsRound (q : ℚ) : ℤ := (q + 1 / 2).floor

/-! The fragment factories of src/index.ts. -/

/-- Embeds `requiredString`: a string rule with required and invalid-type
messages and a minimum length of 1 whose message falls back through
validation, then required, then the catalog default. A plain-string
override fills all three classes. -/
def requiredString (label : String := "This field")
    (customMessages : Option MsgArg := none) : JsValue → Except Failure String :=
  fun v =>
    let messages : CustomMessages :=
      match customMessages with
      | some (.str s) => ⟨some s, some s, some s⟩
      | some (.obj m) => m
      | none => {}
    match zodStringParse (jsOr messages.required (label ++ " " ++ FIELD_ERRORS.REQUIRED))
        (jsOr messages.invalid (label ++ " " ++ FIELD_ERRORS.STRING)) v with
    | .error f => .error f
    | .ok s =>
        if 1 ≤ s.length then .ok s
        else
          .error ⟨.Validation,
            jsOr messages.validation
              (jsOr messages.required (label ++ " " ++ FIELD_ERRORS.REQUIRED))⟩

/-- Embeds `optionalString`: an optional string rule; a plain-string
override fills only the invalid entry. -/
def optionalString (label : String := "This field")
    (customMessages : Option MsgArg := none) :
    JsValue → Except Failure (Option String) :=
  let messages : CustomMessages :=
    match customMessages with
    | some (.str s) => { invalid := some s }
    | some (.obj m) => m
    | none => {}
  zodOptional
    (zodStringParse zodRequiredDefault
      (jsOr messages.invalid (label ++ " " ++ FIELD_ERRORS.STRING)))

/-- Embeds `requiredNumber`: a number rule with required and invalid-type
messages; a plain-string override fills required and invalid. -/
def requiredNumber (label : String := "This field")
    (customMessages : Option MsgArg := none) : JsValue → Except Failure ℚ :=
  let messages : CustomMessages :=
    match customMessages with
    | some (.str s) => { required := some s, invalid := some s }
    | some (.obj m) => m
    | none => {}
  zodNumberParse (jsOr messages.required (label ++ " " ++ FIELD_ERRORS.REQUIRED))
    (jsOr messages.invalid (label ++ " " ++ FIELD_ERRORS.NUMBER))

/-- Embeds `positiveNumber`: a number rule configured with only an
invalid-type message (no required_error, so a missing value gets the zod
default text) and a strict positivity check; a plain-string override fills
invalid and validation. -/
def positiveNumber (label : String := "This field")
    (customMessages : Option MsgArg := none) : JsValue → Except Failure ℚ :=
  fun v =>
    let messages : CustomMessages :=
      match customMessages with
      | some (.str s) => { invalid := some s, validation := some s }
      | some (.obj m) => m
      | none => {}
    match zodNumberParse zodRequiredDefault
        (jsOr messages.invalid (label ++ " " ++ FIELD_ERRORS.NUMBER)) v with
    | .error f => .error f
    | .ok q =>
        if 0 < q then .ok q
        else .error ⟨.Validation, jsOr messages.validation (label ++ " must be positive")⟩

/-- Embeds `optionalNumber`. -/
def optionalNumber (label : String := "This field")
    (customMessages : Option MsgArg := none) :
    JsValue → Except Failure (Option ℚ) :=
  let messages : CustomMessages :=
    match customMessages with
    | some (.str s) => { invalid := some s }
    | some (.obj m) => m
    | none => {}
  zodOptional
    (zodNumberParse zodRequiredDefault
      (jsOr messages.invalid (label ++ " " ++ FIELD_ERRORS.NUMBER)))

/-- Embeds `boolean`: a boolean rule with only an invalid-type message. -/
def boolean (label : String := "This field")
    (customMessages : Option MsgArg := none) : JsValue → Except Failure Bool :=
  let messages : CustomMessages :=
    match customMessages with
    | some (.str s) => { invalid := some s }
    | some (.obj m) => m
    | none => {}
  zodBooleanParse zodRequiredDefault
    (jsOr messages.invalid (label ++ " " ++ FIELD_ERRORS.BOOLEAN))

/-- Embeds `optionalBoolean`. -/
def optionalBoolean (label : String := "This field")
    (customMessages : Option MsgArg := none) :
    JsValue → Except Failure (Option Bool) :=
  let messages : CustomMessages :=
    match customMessages with
    | some (.str s) => { invalid := some s }
    | some (.obj m) => m
    | none => {}
  zodOptional
    (zodBooleanParse zodRequiredDefault
      (jsOr messages.invalid (label ++ " " ++ FIELD_ERRORS.BOOLEAN)))

/-- Embeds `uuid`: a required string rule with a UUID format check; a
plain-string override fills all three classes. -/
def uuid (label : String := "ID")
    (customMessages : Option MsgArg := none) : JsValue → Except Failure String :=
  fun v =>
    let messages : CustomMessages :=
      match customMessages with
      | some (.str s) => ⟨some s, some s, some s⟩
      | some (.obj m) => m
      | none => {}
    match zodStringParse (jsOr messages.required (label ++ " " ++ FIELD_ERRORS.REQUIRED))
        (jsOr messages.invalid (label ++ " " ++ FIELD_ERRORS.STRING)) v with
    | .error f => .error f
    | .ok s =>
        if isUuidString s then .ok s
        else .error ⟨.Validation, jsOr messages.validation (label ++ " " ++ FIELD_ERRORS.UUID)⟩

/-- Embeds `optionalUUID`, which the source defines as
`uuid(label, customMessages).optional()`. -/
def optionalUUID (label : String := "ID")
    (customMessages : Option MsgArg := none) :
    JsValue → Except Failure (Option String) :=
  zodOptional (uuid label customMessages)

/-- Embeds `Enum`: a literal-options rule whose single errorMap message is
used for every failure mode; a plain-string override fills only the
validation entry. -/
def Enum (options : List String) (label : String := "This field")
    (customMessages : Option MsgArg := none) : JsValue → Except Failure String :=
  fun v =>
    let messages : CustomMessages :=
      match customMessages with
      | some (.str s) => { validation := some s }
      | some (.obj m) => m
      | none => {}
    let unified :=
      jsOr messages.validation
        (label ++ " " ++ FIELD_ERRORS.ENUM ++ " " ++ String.intercalate ", " options)
    match v with
    | .undef => .error ⟨.Required, unified⟩
    | .str s => if s ∈ options then .ok s else .error ⟨.Validation, unified⟩
    | _ => .error ⟨.InvalidType, unified⟩

/-- Embeds `dateString`: a required string rule refined by the host date
parser; a plain-string override fills all three classes. -/
def dateString (label : String := "Date")
    (customMessages : Option MsgArg := none) : JsValue → Except Failure String :=
  fun v =>
    let messages : CustomMessages :=
      match customMessages with
      | some (.str s) => ⟨some s, some s, some s⟩
      | some (.obj m) => m
      | none => {}
    match zodStringParse (jsOr messages.required (label ++ " " ++ FIELD_ERRORS.REQUIRED))
        (jsOr messages.invalid (label ++ " " ++ FIELD_ERRORS.STRING)) v with
    | .error f => .error f
    | .ok s =>
        if dateParseOk s then .ok s
        else .error ⟨.Validation, jsOr messages.validation (label ++ " " ++ FIELD_ERRORS.DATE)⟩

/-- Embeds `optionalDate`, defined as `dateString(label, customMessages).optional()`. -/
def optionalDate (label : String := "Date")
    (customMessages : Option MsgArg := none) :
    JsValue → Except Failure (Option String) :=
  zodOptional (dateString label customMessages)

/-! The fragment factories of src/extensions.ts used by the claims. -/

/-- Embeds `requiredStringTrimmed`: `requiredString(label, msg)` followed by
a trim transform, so every check of requiredString runs on the untrimmed
value. -/
def requiredStringTrimmed (label : String := "This field")
    (msg : Option MsgArg := none) : JsValue → Except Failure String :=
  fun v => (requiredString label msg v).map jsTrim

/-- The tagged output shape of `emailOrMobileNormalized`. -/
structure TaggedIdent where
  type : String
  value : String
  deriving DecidableEq, Repr

/-- Embeds `emailOrMobileNormalized`: a required string, trimmed and
stripped of whitespace, hyphens and a leading +91, re-validated as an email
or a strict India mobile number, and shaped into a tagged result with
emails lowercased. -/
def emailOrMobileNormalized (label : String := "Identifier")
    (msg : Option MsgArg := none) : JsValue → Except Failure TaggedIdent :=
  fun v =>
    match zodStringParse
        (inlineMsg msg (fun m => m.required) (label ++ " " ++ FIELD_ERRORS.REQUIRED))
        (inlineMsg msg (fun m => m.invalid) (label ++ " " ++ FIELD_ERRORS.STRING)) v with
    | .error f => .error f
    | .ok s =>
        let raw := dropCountryCode (stripSpacesAndHyphens s)
        if isEmailPattern raw || isIndiaMobile raw then
          .ok (if isEmailPattern raw then ⟨"email", jsToLower raw⟩ else ⟨"mobile", raw⟩)
        else
          .error ⟨.Validation,
            inlineMsg msg (fun m => m.validation) (label ++ " must be a valid email or mobile")⟩

/-- True when a validation outcome is a failure of the Required class. -/
def hasRequiredFailure : Except Failure α → Bool
  | .error f => f.cls == FailureClass.Required
  | .ok _ => false

/-- The message the uuid factory resolves for its format check, as a
standalone function of label and override: a plain-string override fills
the validation entry (through the same || fallback), a structured override
contributes its validation entry, and otherwise the label plus the catalog
UUID suffix is used. -/
def uuidValidationMessage (label : String) (msg : Option MsgArg) : String :=
  match msg with
  | some (.str s) => jsOr (some s) (label ++ " " ++ FIELD_ERRORS.UUID)
  | some (.obj m) => jsOr m.validation (label ++ " " ++ FIELD_ERRORS.UUID)
  | none => label ++ " " ++ FIELD_ERRORS.UUID

/-- The message the dateString factory resolves for its date refinement,
as a standalone function of label and override, with the same resolution
as `uuidValidationMessage` but the catalog date suffix. -/
def dateValidationMessage (label : String) (msg : Option MsgArg) : String :=
  match msg with
  | some (.str s) => jsOr (some s) (label ++ " " ++ FIELD_ERRORS.DATE)
  | some (.obj m) => jsOr m.validation (label ++ " " ++ FIELD_ERRORS.DATE)
  | none => label ++ " " ++ FIELD_ERRORS.DATE

/-- Embeds `money`: a union of number and string, the string coerced through
the Number builtin, refined to be finite and nonnegative, then rounded to
two decimals via `Math.round(n * 100) / 100`. A value that fits neither
union branch gets the zod default union message. -/
def money (label : String := "Amount")
    (msg : Option MsgArg := none) : JsValue → Except Failure ℚ :=
  fun v =>
    let afterUnion : Option ℚ → Except Failure ℚ := fun n =>
      match n with
      | none =>
          .error ⟨.Validation, inlineMsg msg (fun m => m.invalid) (label ++ " " ++ FIELD_ERRORS.NUMBER)⟩
      | some q =>
          if 0 ≤ q then .ok ((jsRound (q * 100) : ℚ) / 100)
          else .error ⟨.Validation, inlineMsg msg (fun m => m.validation) (label ++ " must be >= 0")⟩
    match v with
    | .num q => afterUnion (some q)
    | .str s => afterUnion (jsNumber s)
    | .undef => .error ⟨.Required, zodInvalidUnionDefault⟩
    | _ => .error ⟨.InvalidType, zodInvalidUnionDefault⟩

/-! Helper lemmas shared by the claim theorems. -/

/-- The JS rounding helper agrees with the standard round-half-up rounding
of Mathlib, which on nonnegative values is round-half-away-from-zero. -/
theorem jsRound_eq_round (q : ℚ) : jsRound q = round q := by
  rw [jsRound, Rat.floor_def', ← Rat.floor_def, round_eq]

theorem hasRequiredFailure_map (r : Except Failure α) (f : α → β) :
    hasRequiredFailure (r.map f) = hasRequiredFailure r := by
  cases r <;> rfl

/-! Claim theorems. -/

/-- Claim C1: with the single-string override "custom", requiredString "X"
reports the message "custom" for a missing value, for every present
non-string value (a number, NaN, a boolean, null), and for a present empty
string, so all three failure classes carry the override text verbatim. -/
theorem requiredString_string_override_collapses_all_classes :
    requiredString "X" (some (.str "custom")) .undef = .error ⟨.Required, "custom"⟩ ∧
    (∀ q : ℚ, requiredString "X" (some (.str "custom")) (.num q)
      = .error ⟨.InvalidType, "custom"⟩) ∧
    (∀ b : Bool, requiredString "X" (some (.str "custom")) (.bool b)
      = .error ⟨.InvalidType, "custom"⟩) ∧
    requiredString "X" (some (.str "custom")) .nullv = .error ⟨.InvalidType, "custom"⟩ ∧
    requiredString "X" (some (.str "custom")) .nan = .error ⟨.InvalidType, "custom"⟩ ∧
    requiredString "X" (some (.str "custom")) (.str "") = .error ⟨.Validation, "custom"⟩ :=
  ⟨rfl, fun _ => rfl, fun _ => rfl, rfl, rfl, by decide⟩

/-- Claim C7: with the structured override that sets only the validation
entry to "bad", requiredString keeps the default required message for a
missing value and the default invalid-type message for every present
non-string value, while the empty-string failure message becomes "bad". -/
theorem requiredString_structured_validation_override_only :
    ∀ label : String,
    requiredString label (some (.obj { validation := some "bad" })) .undef
      = .error ⟨.Required, label ++ " " ++ FIELD_ERRORS.REQUIRED⟩ ∧
    (∀ q : ℚ, requiredString label (some (.obj { validation := some "bad" })) (.num q)
      = .error ⟨.InvalidType, label ++ " " ++ FIELD_ERRORS.STRING⟩) ∧
    (∀ b : Bool, requiredString label (some (.obj { validation := some "bad" })) (.bool b)
      = .error ⟨.InvalidType, label ++ " " ++ FIELD_ERRORS.STRING⟩) ∧
    requiredString label (some (.obj { validation := some "bad" })) .nullv
      = .error ⟨.InvalidType, label ++ " " ++ FIELD_ERRORS.STRING⟩ ∧
    requiredString label (some (.obj { validation := some "bad" })) .nan
      = .error ⟨.InvalidType, label ++ " " ++ FIELD_ERRORS.STRING⟩ ∧
    requiredString label (some (.obj { validation := some "bad" })) (.str "")
      = .error ⟨.Validation, "bad"⟩ :=
  fun _ => ⟨rfl, fun _ => rfl, fun _ => rfl, rfl, rfl, rfl⟩

/-- Claim C10: requiredStringTrimmed runs the minimum-length-1 check of
requiredString on the untrimmed input and only then trims, so for every
label a whitespace-only input such as a single space passes validation and
the successful output is the empty string. -/
theorem requiredStringTrimmed_validates_untrimmed_then_trims :
    ∀ label : String,
    (∀ s : String, requiredStringTrimmed label none (.str s)
      = if 1 ≤ s.length then .ok (jsTrim s)
        else .error ⟨.Validation, label ++ " " ++ FIELD_ERRORS.REQUIRED⟩) ∧
    requiredStringTrimmed label none (.str " ") = .ok "" := by
  intro label
  constructor
  · intro s
    simp only [requiredStringTrimmed, requiredString, zodStringParse, jsOr]
    split <;> rfl
  · rfl

/-- Claim C4: emailOrMobileNormalized strips whitespace, hyphens and a
leading +91 and then classifies: the padded +91 mobile input normalizes to
the tagged mobile value 9876543210, a mixed-case email is lowercased into a
tagged email value, the five-digit input 12345 fails validation, and so
does a ten-digit number starting with 1, since a mobile must start with a
digit between 6 and 9. -/
theorem emailOrMobileNormalized_normalization_cases :
    emailOrMobileNormalized "Identifier" none (.str " +91 98765-43210 ")
      = .ok ⟨"mobile", "9876543210"⟩ ∧
    emailOrMobileNormalized "Identifier" none (.str "A@B.com")
      = .ok ⟨"email", "a@b.com"⟩ ∧
    emailOrMobileNormalized "Identifier" none (.str "12345")
      = .error ⟨.Validation, "Identifier must be a valid email or mobile"⟩ ∧
    emailOrMobileNormalized "Identifier" none (.str "1234567890")
      = .error ⟨.Validation, "Identifier must be a valid email or mobile"⟩ := by
  refine ⟨by decide, by decide, by decide, by decide⟩

/-- Claim C5: Enum with options a, b and label Role accepts both options
unchanged and rejects every other value, whether a missing value, a
non-string, or a string outside the options, always with the single unified
message listing the options in order. -/
theorem Enum_accepts_options_rejects_rest_unified_message :
    Enum ["a", "b"] "Role" none (.str "a") = .ok "a" ∧
    Enum ["a", "b"] "Role" none (.str "b") = .ok "b" ∧
    (∀ v : JsValue, v ≠ .str "a" → v ≠ .str "b" →
      ∃ c : FailureClass,
        Enum ["a", "b"] "Role" none v = .error ⟨c, "Role must be one of: a, b"⟩) := by
  refine ⟨by decide, by decide, ?_⟩
  intro v ha hb
  cases v with
  | undef => exact ⟨.Required, by decide⟩
  | nullv => exact ⟨.InvalidType, by decide⟩
  | nan => exact ⟨.InvalidType, by decide⟩
  | num q => exact ⟨.InvalidType, rfl⟩
  | bool b => exact ⟨.InvalidType, rfl⟩
  | str s =>
      refine ⟨.Validation, ?_⟩
      have hs : s ∉ (["a", "b"] : List String) := by
        intro hmem
        simp only [List.mem_cons, List.not_mem_nil, or_false] at hmem
        rcases hmem with h | h
        · exact ha (by rw [h])
        · exact hb (by rw [h])
      simp only [Enum, jsOr]
      rw [if_neg hs]
      rfl

/-- Witness for claim C5 at the concrete rejected string "c". -/
theorem Enum_accepts_options_rejects_rest_unified_message_witness :
    ∃ c : FailureClass,
      Enum ["a", "b"] "Role" none (.str "c") = .error ⟨c, "Role must be one of: a, b"⟩ :=
  Enum_accepts_options_rejects_rest_unified_message.2.2 (.str "c")
    (by decide) (by decide)

/-- Counterexample to claim C2: positiveNumber configures no
required_error, so a missing value is reported with the zod default text
"Required" and not with the label plus the catalog Required suffix. -/
theorem positiveNumber_missing_value_message_not_label_interpolated :
    positiveNumber "This field" none .undef = .error ⟨.Required, zodRequiredDefault⟩ ∧
    positiveNumber "This field" none .undef
      ≠ .error ⟨.Required, "This field" ++ " " ++ FIELD_ERRORS.REQUIRED⟩ := by
  decide

/-- Claim C2 as amended: positiveNumber is a required number fragment whose
missing-value failure carries the runtime default message "Required" (the
factory sets no required message), a present non-number yields InvalidType
with the label plus the catalog number suffix, a number not strictly
positive yields a Validation failure with the positivity message, and a
strictly positive number succeeds unchanged. -/
theorem positiveNumber_failure_modes :
    ∀ label : String,
    positiveNumber label none .undef = .error ⟨.Required, zodRequiredDefault⟩ ∧
    (∀ s : String, positiveNumber label none (.str s)
      = .error ⟨.InvalidType, label ++ " " ++ FIELD_ERRORS.NUMBER⟩) ∧
    (∀ b : Bool, positiveNumber label none (.bool b)
      = .error ⟨.InvalidType, label ++ " " ++ FIELD_ERRORS.NUMBER⟩) ∧
    positiveNumber label none .nullv
      = .error ⟨.InvalidType, label ++ " " ++ FIELD_ERRORS.NUMBER⟩ ∧
    positiveNumber label none .nan
      = .error ⟨.InvalidType, label ++ " " ++ FIELD_ERRORS.NUMBER⟩ ∧
    (∀ q : ℚ, q ≤ 0 → positiveNumber label none (.num q)
      = .error ⟨.Validation, label ++ " must be positive"⟩) ∧
    (∀ q : ℚ, 0 < q → positiveNumber label none (.num q) = .ok q) := by
  intro label
  refine ⟨rfl, fun _ => rfl, fun _ => rfl, rfl, rfl, ?_, ?_⟩
  · intro q hq
    simp only [positiveNumber, zodNumberParse, jsOr]
    rw [if_neg (not_lt.mpr hq)]
  · intro q hq
    simp only [positiveNumber, zodNumberParse, jsOr]
    rw [if_pos hq]

/-- Witness for the amended claim C2 at the concrete numbers -2 and 3. -/
theorem positiveNumber_failure_modes_witness :
    positiveNumber "Price" none (.num (-2))
      = .error ⟨.Validation, "Price" ++ " must be positive"⟩ ∧
    positiveNumber "Price" none (.num 3) = .ok 3 :=
  ⟨(positiveNumber_failure_modes "Price").2.2.2.2.2.1 (-2) (by decide),
   (positiveNumber_failure_modes "Price").2.2.2.2.2.2 3 (by decide)⟩

/-- Claim C3: money parses the string 12.345 and rounds it to exactly 12.35
since the scaled value 1234.5 rounds half away from zero; the number -1
fails the nonnegativity Validation check; the string abc coerces to NaN and
fails the finiteness check with the number-type message; and every
nonnegative number input is rounded to two decimals through the floor of
the scaled value plus one half, which agrees with standard rounding
(half away from zero on nonnegative values). -/
theorem money_rounds_half_away_and_checks :
    money "Amount" none (.str "12.345") = .ok (12.35 : ℚ) ∧
    money "Amount" none (.num (-1)) = .error ⟨.Validation, "Amount must be >= 0"⟩ ∧
    money "Amount" none (.str "abc")
      = .error ⟨.Validation, "Amount " ++ FIELD_ERRORS.NUMBER⟩ ∧
    (∀ q : ℚ, 0 ≤ q → money "Amount" none (.num q)
      = .ok ((jsRound (q * 100) : ℚ) / 100)) ∧
    (∀ q : ℚ, 0 ≤ q → jsRound q = round q) := by
  refine ⟨?_, ?_, by decide, ?_, fun q _ => jsRound_eq_round q⟩
  · have h : jsNumber "12.345" = some (Rat.divInt 12345 1000) := by decide
    simp only [money, h]
    norm_num [jsRound, Rat.divInt, Rat.floor_def', Rat.num_ofNat, Rat.den_ofNat]
  · simp only [money, inlineMsg]
    norm_num
    decide
  · intro q hq
    simp only [money]
    rw [if_pos hq]

/-- Witness for claim C3 at the concrete nonnegative input 12. -/
theorem money_rounds_half_away_and_checks_witness :
    money "Amount" none (.num 12) = .ok ((jsRound ((12 : ℚ) * 100) : ℚ) / 100) ∧
    jsRound (12 : ℚ) = round (12 : ℚ) :=
  ⟨money_rounds_half_away_and_checks.2.2.2.1 12 (by decide),
   money_rounds_half_away_and_checks.2.2.2.2 12 (by decide)⟩

/-- Counterexample to claim C6: money applied to a boolean, a value of the
wrong primitive type for its number-or-string union, reports the zod union
default message "Invalid input" rather than the label plus the catalog
number suffix. -/
theorem money_wrong_type_message_is_union_default :
    money "Amount" none (.bool true) = .error ⟨.InvalidType, zodInvalidUnionDefault⟩ ∧
    zodInvalidUnionDefault ≠ "Amount" ++ " " ++ FIELD_ERRORS.NUMBER := by
  decide

/-- Claim C6 as amended: for each primitive fragment factory that
configures an invalid_type_error — requiredString, optionalString, uuid,
optionalUUID, dateString, optionalDate, requiredNumber, positiveNumber,
optionalNumber, boolean, optionalBoolean — and for every label, a present
value of the wrong primitive type yields exactly one InvalidType failure
whose message is the label, a space, and the catalog suffix for that base
type. The original universal claim over the whole exposed surface fails:
money reports the zod union default text for a wrong-typed value. -/
theorem primitive_factories_invalid_type_catalog_message :
    ∀ label : String,
    ((∀ q : ℚ, requiredString label none (.num q)
        = .error ⟨.InvalidType, label ++ " " ++ FIELD_ERRORS.STRING⟩) ∧
      (∀ b : Bool, requiredString label none (.bool b)
        = .error ⟨.InvalidType, label ++ " " ++ FIELD_ERRORS.STRING⟩) ∧
      requiredString label none .nullv
        = .error ⟨.InvalidType, label ++ " " ++ FIELD_ERRORS.STRING⟩ ∧
      requiredString label none .nan
        = .error ⟨.InvalidType, label ++ " " ++ FIELD_ERRORS.STRING⟩) ∧
    ((∀ q : ℚ, optionalString label none (.num q)
        = .error ⟨.InvalidType, label ++ " " ++ FIELD_ERRORS.STRING⟩) ∧
      (∀ b : Bool, optionalString label none (.bool b)
        = .error ⟨.InvalidType, label ++ " " ++ FIELD_ERRORS.STRING⟩) ∧
      optionalString label none .nullv
        = .error ⟨.InvalidType, label ++ " " ++ FIELD_ERRORS.STRING⟩ ∧
      optionalString label none .nan
        = .error ⟨.InvalidType, label ++ " " ++ FIELD_ERRORS.STRING⟩) ∧
    ((∀ q : ℚ, uuid label none (.num q)
        = .error ⟨.InvalidType, label ++ " " ++ FIELD_ERRORS.STRING⟩) ∧
      (∀ b : Bool, uuid label none (.bool b)
        = .error ⟨.InvalidType, label ++ " " ++ FIELD_ERRORS.STRING⟩) ∧
      uuid label none .nullv
        = .error ⟨.InvalidType, label ++ " " ++ FIELD_ERRORS.STRING⟩ ∧
      uuid label none .nan
        = .error ⟨.InvalidType, label ++ " " ++ FIELD_ERRORS.STRING⟩) ∧
    ((∀ q : ℚ, optionalUUID label none (.num q)
        = .error ⟨.InvalidType, label ++ " " ++ FIELD_ERRORS.STRING⟩) ∧
      (∀ b : Bool, optionalUUID label none (.bool b)
        = .error ⟨.InvalidType, label ++ " " ++ FIELD_ERRORS.STRING⟩) ∧
      optionalUUID label none .nullv
        = .error ⟨.InvalidType, label ++ " " ++ FIELD_ERRORS.STRING⟩ ∧
      optionalUUID label none .nan
        = .error ⟨.InvalidType, label ++ " " ++ FIELD_ERRORS.STRING⟩) ∧
    ((∀ q : ℚ, dateString label none (.num q)
        = .error ⟨.InvalidType, label ++ " " ++ FIELD_ERRORS.STRING⟩) ∧
      (∀ b : Bool, dateString label none (.bool b)
        = .error ⟨.InvalidType, label ++ " " ++ FIELD_ERRORS.STRING⟩) ∧
      dateString label none .nullv
        = .error ⟨.InvalidType, label ++ " " ++ FIELD_ERRORS.STRING⟩ ∧
      dateString label none .nan
        = .error ⟨.InvalidType, label ++ " " ++ FIELD_ERRORS.STRING⟩) ∧
    ((∀ q : ℚ, optionalDate label none (.num q)
        = .error ⟨.InvalidType, label ++ " " ++ FIELD_ERRORS.STRING⟩) ∧
      (∀ b : Bool, optionalDate label none (.bool b)
        = .error ⟨.InvalidType, label ++ " " ++ FIELD_ERRORS.STRING⟩) ∧
      optionalDate label none .nullv
        = .error ⟨.InvalidType, label ++ " " ++ FIELD_ERRORS.STRING⟩ ∧
      optionalDate label none .nan
        = .error ⟨.InvalidType, label ++ " " ++ FIELD_ERRORS.STRING⟩) ∧
    ((∀ s : String, requiredNumber label none (.str s)
        = .error ⟨.InvalidType, label ++ " " ++ FIELD_ERRORS.NUMBER⟩) ∧
      (∀ b : Bool, requiredNumber label none (.bool b)
        = .error ⟨.InvalidType, label ++ " " ++ FIELD_ERRORS.NUMBER⟩) ∧
      requiredNumber label none .nullv
        = .error ⟨.InvalidType, label ++ " " ++ FIELD_ERRORS.NUMBER⟩ ∧
      requiredNumber label none .nan
        = .error ⟨.InvalidType, label ++ " " ++ FIELD_ERRORS.NUMBER⟩) ∧
    ((∀ s : String, positiveNumber label none (.str s)
        = .error ⟨.InvalidType, label ++ " " ++ FIELD_ERRORS.NUMBER⟩) ∧
      (∀ b : Bool, positiveNumber label none (.bool b)
        = .error ⟨.InvalidType, label ++ " " ++ FIELD_ERRORS.NUMBER⟩) ∧
      positiveNumber label none .nullv
        = .error ⟨.InvalidType, label ++ " " ++ FIELD_ERRORS.NUMBER⟩ ∧
      positiveNumber label none .nan
        = .error ⟨.InvalidType, label ++ " " ++ FIELD_ERRORS.NUMBER⟩) ∧
    ((∀ s : String, optionalNumber label none (.str s)
        = .error ⟨.InvalidType, label ++ " " ++ FIELD_ERRORS.NUMBER⟩) ∧
      (∀ b : Bool, optionalNumber label none (.bool b)
        = .error ⟨.InvalidType, label ++ " " ++ FIELD_ERRORS.NUMBER⟩) ∧
      optionalNumber label none .nullv
        = .error ⟨.InvalidType, label ++ " " ++ FIELD_ERRORS.NUMBER⟩ ∧
      optionalNumber label none .nan
        = .error ⟨.InvalidType, label ++ " " ++ FIELD_ERRORS.NUMBER⟩) ∧
    ((∀ s : String, boolean label none (.str s)
        = .error ⟨.InvalidType, label ++ " " ++ FIELD_ERRORS.BOOLEAN⟩) ∧
      (∀ q : ℚ, boolean label none (.num q)
        = .error ⟨.InvalidType, label ++ " " ++ FIELD_ERRORS.BOOLEAN⟩) ∧
      boolean label none .nullv
        = .error ⟨.InvalidType, label ++ " " ++ FIELD_ERRORS.BOOLEAN⟩ ∧
      boolean label none .nan
        = .error ⟨.InvalidType, label ++ " " ++ FIELD_ERRORS.BOOLEAN⟩) ∧
    ((∀ s : String, optionalBoolean label none (.str s)
        = .error ⟨.InvalidType, label ++ " " ++ FIELD_ERRORS.BOOLEAN⟩) ∧
      (∀ q : ℚ, optionalBoolean label none (.num q)
        = .error ⟨.InvalidType, label ++ " " ++ FIELD_ERRORS.BOOLEAN⟩) ∧
      optionalBoolean label none .nullv
        = .error ⟨.InvalidType, label ++ " " ++ FIELD_ERRORS.BOOLEAN⟩ ∧
      optionalBoolean label none .nan
        = .error ⟨.InvalidType, label ++ " " ++ FIELD_ERRORS.BOOLEAN⟩) :=
  fun _ =>
    ⟨⟨fun _ => rfl, fun _ => rfl, rfl, rfl⟩,
     ⟨fun _ => rfl, fun _ => rfl, rfl, rfl⟩,
     ⟨fun _ => rfl, fun _ => rfl, rfl, rfl⟩,
     ⟨fun _ => rfl, fun _ => rfl, rfl, rfl⟩,
     ⟨fun _ => rfl, fun _ => rfl, rfl, rfl⟩,
     ⟨fun _ => rfl, fun _ => rfl, rfl, rfl⟩,
     ⟨fun _ => rfl, fun _ => rfl, rfl, rfl⟩,
     ⟨fun _ => rfl, fun _ => rfl, rfl, rfl⟩,
     ⟨fun _ => rfl, fun _ => rfl, rfl, rfl⟩,
     ⟨fun _ => rfl, fun _ => rfl, rfl, rfl⟩,
     ⟨fun _ => rfl, fun _ => rfl, rfl, rfl⟩⟩

/-- Counterexample to claim C8: optionalUUID applied to the present string
x fails with a Validation-class failure carrying the UUID format message,
so more than InvalidType is checked on present values of an optional
fragment. -/
theorem optionalUUID_present_string_validation_failure :
    optionalUUID "ID" none (.str "x")
      = .error ⟨.Validation, "ID" ++ " " ++ FIELD_ERRORS.UUID⟩ ∧
    FailureClass.Validation ≠ FailureClass.InvalidType := by
  decide

/-- Claim C8 as amended: for every label and every override, every optional
fragment passes an absent value through unchanged as an absent result and
never raises a Required failure on any input; present well-typed values
always succeed for optionalString, optionalNumber and optionalBoolean,
while optionalUUID and optionalDate additionally subject present strings to
their format check, failing with a Validation-class failure carrying the
resolved validation message when it does not hold. -/
theorem optional_fragments_undef_passthrough_never_required :
    ∀ (label : String) (msg : Option MsgArg),
    (optionalString label msg .undef = .ok none ∧
      (∀ v, hasRequiredFailure (optionalString label msg v) = false) ∧
      (∀ s : String, optionalString label msg (.str s) = .ok (some s))) ∧
    (optionalNumber label msg .undef = .ok none ∧
      (∀ v, hasRequiredFailure (optionalNumber label msg v) = false) ∧
      (∀ q : ℚ, optionalNumber label msg (.num q) = .ok (some q))) ∧
    (optionalBoolean label msg .undef = .ok none ∧
      (∀ v, hasRequiredFailure (optionalBoolean label msg v) = false) ∧
      (∀ b : Bool, optionalBoolean label msg (.bool b) = .ok (some b))) ∧
    (optionalUUID label msg .undef = .ok none ∧
      (∀ v, hasRequiredFailure (optionalUUID label msg v) = false) ∧
      (∀ s : String, optionalUUID label msg (.str s)
        = if isUuidString s then .ok (some s)
          else .error ⟨.Validation, uuidValidationMessage label msg⟩)) ∧
    (optionalDate label msg .undef = .ok none ∧
      (∀ v, hasRequiredFailure (optionalDate label msg v) = false) ∧
      (∀ s : String, optionalDate label msg (.str s)
        = if dateParseOk s then .ok (some s)
          else .error ⟨.Validation, dateValidationMessage label msg⟩)) := by
  intro label msg
  refine ⟨⟨rfl, ?_, fun _ => rfl⟩, ⟨rfl, ?_, fun _ => rfl⟩, ⟨rfl, ?_, fun _ => rfl⟩,
    ⟨rfl, ?_, ?_⟩, ⟨rfl, ?_, ?_⟩⟩
  · intro v
    cases v with
    | undef => rfl
    | nullv => rfl
    | str s => rfl
    | num q => rfl
    | nan => rfl
    | bool b => rfl
  · intro v
    cases v with
    | undef => rfl
    | nullv => rfl
    | str s => rfl
    | num q => rfl
    | nan => rfl
    | bool b => rfl
  · intro v
    cases v with
    | undef => rfl
    | nullv => rfl
    | str s => rfl
    | num q => rfl
    | nan => rfl
    | bool b => rfl
  · intro v
    cases v with
    | undef => rfl
    | nullv => rfl
    | str s =>
        show hasRequiredFailure ((uuid label msg (.str s)).map some) = false
        rw [hasRequiredFailure_map]
        simp only [uuid, zodStringParse]
        split <;> rfl
    | num q => rfl
    | nan => rfl
    | bool b => rfl
  · intro s
    cases msg with
    | none =>
        simp only [optionalUUID, zodOptional, uuid, zodStringParse,
          uuidValidationMessage, jsOr]
        split <;> rfl
    | some arg =>
        cases arg with
        | str t =>
            simp only [optionalUUID, zodOptional, uuid, zodStringParse,
              uuidValidationMessage]
            split <;> rfl
        | obj mm =>
            simp only [optionalUUID, zodOptional, uuid, zodStringParse,
              uuidValidationMessage]
            split <;> rfl
  · intro v
    cases v with
    | undef => rfl
    | nullv => rfl
    | str s =>
        show hasRequiredFailure ((dateString label msg (.str s)).map some) = false
        rw [hasRequiredFailure_map]
        simp only [dateString, zodStringParse]
        split <;> rfl
    | num q => rfl
    | nan => rfl
    | bool b => rfl
  · intro s
    cases msg with
    | none =>
        simp only [optionalDate, zodOptional, dateString, zodStringParse,
          dateValidationMessage, jsOr]
        split <;> rfl
    | some arg =>
        cases arg with
        | str t =>
            simp only [optionalDate, zodOptional, dateString, zodStringParse,
              dateValidationMessage]
            split <;> rfl
        | obj mm =>
            simp only [optionalDate, zodOptional, dateString, zodStringParse,
              dateValidationMessage]
            split <;> rfl

/-- Claim C9: fragment construction and validation are pure: constructing a
fragment twice from the same factory with identical arguments yields the
same rule, and validating the same input against it twice yields the same
result, across the factory surface. -/
theorem factories_construction_and_validation_deterministic :
    ∀ (label : String) (msg : Option MsgArg) (v : JsValue),
    requiredString label msg = requiredString label msg ∧
    requiredString label msg v = requiredString label msg v ∧
    requiredStringTrimmed label msg = requiredStringTrimmed label msg ∧
    requiredStringTrimmed label msg v = requiredStringTrimmed label msg v ∧
    (∀ options : List String, Enum options label msg v = Enum options label msg v) ∧
    positiveNumber label msg v = positiveNumber label msg v ∧
    optionalString label msg v = optionalString label msg v ∧
    uuid label msg v = uuid label msg v ∧
    money label msg v = money label msg v ∧
    emailOrMobileNormalized label msg v = emailOrMobileNormalized label msg v :=
  fun _ _ _ => ⟨rfl, rfl, rfl, rfl, fun _ => rfl, rfl, rfl, rfl, rfl, rfl⟩

end ZodFragments
